import Mathlib

/-!
Shallow embedding of the Pesto host runtime (`src/main.rs`) sufficient to
settle the frozen claims: the tool-provisioning step, the startup pipeline
(entry-script discovery, luacheck summary parsing, the lua-format walk,
entry-script execution) and the per-frame run-state step of the main loop.

Conventions of the embedding:
* `f32` values of the letterbox computation are modelled as exact rationals.
* Filesystem and subprocess behaviour is an explicit environment value
  (`StartupEnv`, `FrameEnv`): the analyzer stdout, the directory-walk entries
  and the outcome of each interpreter call are inputs to the model.
* A Rust panic (an `unwrap` failing) is modelled as `Except.error`.
-/

namespace Resto

/-! ### Tool provisioning (main.rs lines 59-69)

The temp-dir filesystem is a partial map from path to byte content; the two
embedded blobs are parameters.  `fs::write` guarded by `path.exists()` becomes
`writeIfAbsent`, which also reports the list of paths it wrote. -/

/-- One extraction step: `fs::write(path, blob)` guarded by
`!path.exists()` (main.rs lines 63-65 and 67-69). -/
def writeIfAbsent (fs : String → Option (List Nat)) (path : String) (blob : List Nat) :
    (String → Option (List Nat)) × List String :=
  if (fs path).isSome then (fs, [])
  else (fun p => if p = path then some blob else fs p, [path])

/-- The whole provisioning step: luacheck.exe then lua-format.exe
(main.rs lines 63-69).  Returns the new filesystem and the written paths. -/
def provision (fs : String → Option (List Nat)) (lc lf : List Nat) :
    (String → Option (List Nat)) × List String :=
  let s1 := writeIfAbsent fs "luacheck.exe" lc
  let s2 := writeIfAbsent s1.fst "lua-format.exe" lf
  (s2.fst, s1.snd ++ s2.snd)

/-! ### Analyzer summary parsing (main.rs lines 149-158)

The regex is `(\d+) (warning|warnings) / (\d+) (error|errors)` and the code
reads captures 1 and 3, parsing each with `parse::<u32>().unwrap()`.
We implement the leftmost match of that pattern directly on the character
list (`\d` modelled as an ASCII digit, which is what luacheck emits):
the scanner tries every start position left to right; at a position the
match is forced (maximal digit run, then the literal words, the `s` of the
plural alternative optional), so a deterministic matcher is faithful. -/

/-- Maximal leading ASCII digit run of a character list, with the rest. -/
def takeDigits : List Char → List Char × List Char
  | [] => ([], [])
  | c :: cs =>
    if c.isDigit then
      let p := takeDigits cs
      (c :: p.fst, p.snd)
    else ([], c :: cs)

/-- Strip an exact literal from the front of the input, or fail. -/
def dropLit : List Char → List Char → Option (List Char)
  | [], s => some s
  | _ :: _, [] => none
  | p :: ps, c :: cs => if c = p then dropLit ps cs else none

/-- Try to match the summary pattern starting exactly at the head of `s`,
returning the two digit captures (warnings, errors). -/
def matchAt (s : List Char) : Option (List Char × List Char) :=
  let p1 := takeDigits s
  if p1.fst.isEmpty then none
  else
    match dropLit " warning".data p1.snd with
    | none => none
    | some r2 =>
      let r3 := match r2 with
        | 's' :: rest => rest
        | other => other
      match dropLit " / ".data r3 with
      | none => none
      | some r4 =>
        let p2 := takeDigits r4
        if p2.fst.isEmpty then none
        else
          match dropLit " error".data p2.snd with
          | none => none
          | some _ => some (p1.fst, p2.fst)

/-- Leftmost match of the summary regex over the analyzer stdout:
`Regex::captures` of main.rs line 151, keeping captures 1 and 3. -/
def findSummary : List Char → Option (List Char × List Char)
  | [] => none
  | c :: cs =>
    match matchAt (c :: cs) with
    | some r => some r
    | none => findSummary cs

/-- Numeric value of a digit-character run. -/
def digitsVal (ds : List Char) : Nat :=
  ds.foldl (fun acc c => acc * 10 + (c.toNat - 48)) 0

/-- `captures[i].parse::<u32>()` on a nonempty ASCII digit capture: succeeds
with the value iff it fits in 32 bits, otherwise the `unwrap` panics. -/
def parseU32 (ds : List Char) : Option Nat :=
  if digitsVal ds < 4294967296 then some (digitsVal ds) else none

/-- The lint check of main.rs lines 149-159 applied to the captured stdout.
`Except.error` is a panic of an `unwrap`ped `parse::<u32>`; `Except.ok none`
means the error flag stays clear; `Except.ok (some msg)` means the error flag
is set with `error_message = msg` (the full stdout). -/
def lintOutcome (stdout : String) : Except String (Option String) :=
  match findSummary stdout.data with
  | none => Except.ok none
  | some (wds, eds) =>
    match parseU32 wds with
    | none => Except.error "u32 parse of warnings count panicked"
    | some warnings =>
      match parseU32 eds with
      | none => Except.error "u32 parse of errors count panicked"
      | some errors =>
        if errors > 0 ∨ warnings > 0 then Except.ok (some stdout)
        else Except.ok none

/-! ### Formatting walk (main.rs lines 161-174) -/

/-- One directory-walk entry, as the code observes it: its path, whether it
is a regular file, and `Path::extension()` of its path. -/
structure DirEntry where
  path : String
  isFile : Bool
  ext : Option String
deriving DecidableEq

/-- The body of the walk loop for one `Ok` entry: the guard is
`path.is_file() && path.extension().unwrap().to_str() == Some("lua")`, so the
extension is unwrapped (panic on `None`) whenever the entry is a file.
`Except.ok (some p)` records a lua-format invocation on path `p`. -/
def formatStep (e : DirEntry) : Except String (Option String) :=
  if e.isFile then
    match e.ext with
    | none => Except.error "extension unwrap panicked"
    | some x => if x = "lua" then Except.ok (some e.path) else Except.ok none
  else Except.ok none

/-- The whole walk (main.rs lines 162-174).  A `none` list element is an
`Err` walk entry, skipped by the `if let Ok(entry)`.  Returns the list of
paths the formatter was invoked on, in order, or the first panic. -/
def formatPass : List (Option DirEntry) → Except String (List String)
  | [] => Except.ok []
  | none :: rest => formatPass rest
  | some e :: rest =>
    match formatStep e with
    | Except.error m => Except.error m
    | Except.ok none => formatPass rest
    | Except.ok (some p) =>
      match formatPass rest with
      | Except.error m => Except.error m
      | Except.ok ps => Except.ok (p :: ps)

/-! ### Startup pipeline (main.rs lines 130-185) -/

/-- The environment the startup code observes: whether `main.lua` exists in
the script directory, the stdout the analyzer subprocess produces, the
directory-walk entries, and the result of `lua.load(main_lua).exec()`
(`none` = success, `some m` = interpreter error with `err.to_string() = m`). -/
structure StartupEnv where
  mainLuaExists : Bool
  analyzerStdout : String
  entries : List (Option DirEntry)
  execMainError : Option String

/-- State reached by the end of main.rs line 185, together with which
external effects occurred on the way. -/
structure StartupResult where
  error : Bool
  errorMessage : String
  analyzerInvoked : Bool
  formatterInvocations : List String
  mainLuaRead : Bool
deriving DecidableEq

/-- The startup sequence of main.rs lines 130-185: entry-script existence
check (130-136); if no error, analyzer invocation, lint check, then the
formatting walk, all inside one `if !error` block whose guard was evaluated
before the lint check ran (138-175); then, under a fresh `!error` test,
reading and executing `main.lua` (177-185).  `Except.error` is a panic. -/
def startup (env : StartupEnv) : Except String StartupResult :=
  if env.mainLuaExists then
    match lintOutcome env.analyzerStdout with
    | Except.error m => Except.error m
    | Except.ok lintMsg =>
      match formatPass env.entries with
      | Except.error m => Except.error m
      | Except.ok fmts =>
        match lintMsg with
        | some m => Except.ok ⟨true, m, true, fmts, false⟩
        | none =>
          match env.execMainError with
          | some m => Except.ok ⟨true, m, true, fmts, true⟩
          | none => Except.ok ⟨false, "", true, fmts, true⟩
  else
    Except.ok ⟨true, "main.lua not found.", false, [], false⟩

/-- Whether a modelled computation panicked. -/
def isPanic {α : Type} : Except String α → Bool
  | Except.error _ => true
  | Except.ok _ => false

/-! ### Per-frame run-state step (main.rs lines 196-263) -/

/-- The `error` flag and `error_message` pair of main.rs lines 45-46. -/
structure RunState where
  error : Bool
  errorMessage : String
deriving DecidableEq

/-- What the interpreter does when the frame consults it: the lookup of the
`"update"` key of the `pesto` table either yields no function
(`updateMissing`, the `Err` arm of line 227), or a function whose call
returns cleanly (`updateOk`) or raises an interpreter error with text `m`
(`updateErr m`). -/
inductive FrameEnv where
  | updateMissing
  | updateOk
  | updateErr (msg : String)

/-- What a frame drew on the virtual surface: the error overlay of lines
211-221 (SKYBLUE clear, "ERROR" label, the message split into lines), or the
script-driven scene of lines 222-238. -/
inductive FrameRender where
  | errorOverlay (msg : String)
  | scene
deriving DecidableEq

/-- Frame observations: what was rendered and whether the update callback
was invoked (i.e. script code ran this frame). -/
structure FrameObs where
  render : FrameRender
  updateInvoked : Bool
deriving DecidableEq

/-- One iteration of the main loop (lines 210-238): with the error flag set,
only the stored message is drawn and the interpreter is never consulted;
otherwise the `update` lookup and call run, possibly setting the flag. -/
def frame (env : FrameEnv) (s : RunState) : RunState × FrameObs :=
  if s.error then
    (s, ⟨FrameRender.errorOverlay s.errorMessage, false⟩)
  else
    match env with
    | FrameEnv.updateMissing =>
      (⟨true, "Update function not found."⟩, ⟨FrameRender.scene, false⟩)
    | FrameEnv.updateOk => (s, ⟨FrameRender.scene, true⟩)
    | FrameEnv.updateErr m => (⟨true, m⟩, ⟨FrameRender.scene, true⟩)

/-- Iterated frames, collecting the observation of each. -/
def runFrames : List FrameEnv → RunState → RunState × List FrameObs
  | [], s => (s, [])
  | e :: es, s =>
    let p := frame e s
    let q := runFrames es p.fst
    (q.fst, p.snd :: q.snd)

/-! ### Letterbox transform (main.rs lines 24-26, 198-206, 250-260)

`f32` arithmetic modelled as exact rational arithmetic. -/

/-- Fixed virtual resolution, width (main.rs line 25). -/
def VIRTUAL_WIDTH : ℚ := 1280

/-- Fixed virtual resolution, height (main.rs line 26). -/
def VIRTUAL_HEIGHT : ℚ := 720

/-- `scale` of main.rs lines 198-201. -/
def letterboxScale (w h : ℚ) : ℚ :=
  min (w / VIRTUAL_WIDTH) (h / VIRTUAL_HEIGHT)

/-- Horizontal letterbox offset `(screen_width - VIRTUAL_WIDTH*scale) * 0.5`
(lines 204 and 252). -/
def letterboxOffsetX (w h : ℚ) : ℚ :=
  (w - VIRTUAL_WIDTH * letterboxScale w h) * (1 / 2)

/-- Vertical letterbox offset (lines 205 and 253). -/
def letterboxOffsetY (w h : ℚ) : ℚ :=
  (h - VIRTUAL_HEIGHT * letterboxScale w h) * (1 / 2)

/-- Real-to-virtual x mapping of the mouse position (line 204). -/
def toVirtualX (w h rx : ℚ) : ℚ :=
  (rx - letterboxOffsetX w h) / letterboxScale w h

/-- Real-to-virtual y mapping of the mouse position (line 205). -/
def toVirtualY (w h ry : ℚ) : ℚ :=
  (ry - letterboxOffsetY w h) / letterboxScale w h

/-- Virtual-to-real x mapping, the compositing direction of the same
transform (lines 250-260). -/
def toRealX (w h vx : ℚ) : ℚ :=
  vx * letterboxScale w h + letterboxOffsetX w h

/-- Virtual-to-real y mapping. -/
def toRealY (w h vy : ℚ) : ℚ :=
  vy * letterboxScale w h + letterboxOffsetY w h

/-! ### Concrete inputs used by counterexamples and witnesses -/

/-- An example temp-dir filesystem that already holds one unrelated file. -/
def exampleFs : String → Option (List Nat) :=
  fun p => if p = "other.bin" then some [1, 2, 3] else none

/-- A startup environment whose analyzer stdout reports one warning while
the directory holds one lua file. -/
def lintFailEnv : StartupEnv :=
  { mainLuaExists := true
    analyzerStdout := "Total: 1 warning / 0 errors"
    entries := [some ⟨"./main.lua", true, some "lua"⟩]
    execMainError := none }

/-- Analyzer stdout whose warnings count exceeds `u32::MAX`. -/
def overflowStdout : String := "4294967296 warnings / 0 errors"

/-- A startup environment whose analyzer stdout reports two warnings and one
error, with an empty directory walk. -/
def c1Env : StartupEnv :=
  { mainLuaExists := true
    analyzerStdout := "Checking 2 warnings / 1 error"
    entries := []
    execMainError := none }

/-- A startup environment with no `main.lua` in the script directory. -/
def noMainEnv : StartupEnv :=
  { mainLuaExists := false
    analyzerStdout := "unused"
    entries := [some ⟨"a.lua", true, some "lua"⟩]
    execMainError := none }

/-- A directory walk holding a lua file, an `Err` entry, and a regular file
with no extension. -/
def panicEntries : List (Option DirEntry) :=
  [some ⟨"a.lua", true, some "lua"⟩, none, some ⟨"LICENSE", true, none⟩]

/-- A startup environment whose analyzer stdout has no summary line. -/
def cleanEnv : StartupEnv :=
  { mainLuaExists := true
    analyzerStdout := "Checking main.lua OK"
    entries := [some ⟨"./main.lua", true, some "lua"⟩]
    execMainError := none }

/-! ### Helper lemmas -/

/-- A matched summary with in-range nonzero counts makes the lint check set
the error flag with the full stdout as message. -/
theorem lintOutcome_failure (stdout : String) (w e : List Char)
    (hfind : findSummary stdout.data = some (w, e))
    (hw : digitsVal w < 4294967296) (he : digitsVal e < 4294967296)
    (hpos : 0 < digitsVal w ∨ 0 < digitsVal e) :
    lintOutcome stdout = Except.ok (some stdout) := by
  simp only [lintOutcome, hfind, parseU32, if_pos hw, if_pos he]
  rw [if_pos]
  omega

/-- With no summary match the lint check leaves the error flag clear. -/
theorem lintOutcome_noMatch (stdout : String)
    (hfind : findSummary stdout.data = none) :
    lintOutcome stdout = Except.ok none := by
  simp only [lintOutcome, hfind]

/-- `writeIfAbsent` never changes the content of an existing file. -/
theorem writeIfAbsent_preserves (fs : String → Option (List Nat))
    (path : String) (blob : List Nat) (p : String) (c : List Nat)
    (h : fs p = some c) :
    (writeIfAbsent fs path blob).fst p = some c := by
  rw [writeIfAbsent]
  by_cases hex : (fs path).isSome = true
  · rw [if_pos hex]
    exact h
  · rw [if_neg hex]
    by_cases hp : p = path
    · subst hp
      rw [h] at hex
      simp at hex
    · simp only [hp, if_false]
      exact h

/-- After `writeIfAbsent` the target path holds a file. -/
theorem writeIfAbsent_target_some (fs : String → Option (List Nat))
    (path : String) (blob : List Nat) :
    ((writeIfAbsent fs path blob).fst path).isSome = true := by
  rw [writeIfAbsent]
  by_cases hex : (fs path).isSome = true
  · rw [if_pos hex]
    exact hex
  · rw [if_neg hex]
    simp

/-- `writeIfAbsent` preserves existence of any file. -/
theorem writeIfAbsent_isSome_mono (fs : String → Option (List Nat))
    (path : String) (blob : List Nat) (q : String)
    (h : (fs q).isSome = true) :
    ((writeIfAbsent fs path blob).fst q).isSome = true := by
  obtain ⟨c, hc⟩ := Option.isSome_iff_exists.mp h
  rw [writeIfAbsent_preserves fs path blob q c hc]
  rfl

/-- When the target path already exists, `writeIfAbsent` is the identity and
writes nothing. -/
theorem writeIfAbsent_of_some (fs : String → Option (List Nat))
    (path : String) (blob : List Nat) (h : (fs path).isSome = true) :
    writeIfAbsent fs path blob = (fs, []) := by
  rw [writeIfAbsent, if_pos h]

/-- When both tool paths already exist, provisioning changes nothing and
writes nothing. -/
theorem provision_of_exists (fs : String → Option (List Nat)) (lc lf : List Nat)
    (h1 : (fs "luacheck.exe").isSome = true)
    (h2 : (fs "lua-format.exe").isSome = true) :
    provision fs lc lf = (fs, []) := by
  simp only [provision, writeIfAbsent_of_some fs "luacheck.exe" lc h1]
  simp only [writeIfAbsent_of_some fs "lua-format.exe" lf h2]
  rfl

/-- A conditional between two successful results never panics. -/
theorem isPanic_ite {α : Type} (c : Prop) [Decidable c] (a b : α) :
    isPanic (if c then Except.ok a else Except.ok b) = false := by
  by_cases h : c
  · rw [if_pos h]
    rfl
  · rw [if_neg h]
    rfl

/-! ### Claims -/

/-- Claim C1: for every analyzer stdout whose summary pattern matches with
warnings > 0 or errors > 0 (counts in u32 range, so the parse succeeds), the
run state after startup has the error flag set with the full raw stdout as
the message, and `main.lua` is never read or evaluated. -/
theorem claim1_validation_failure_reaches_error
    (env : StartupEnv) (w e : List Char) (r : StartupResult)
    (hmain : env.mainLuaExists = true)
    (hfind : findSummary env.analyzerStdout.data = some (w, e))
    (hw : digitsVal w < 4294967296) (he : digitsVal e < 4294967296)
    (hpos : 0 < digitsVal w ∨ 0 < digitsVal e)
    (hrun : startup env = Except.ok r) :
    r.error = true ∧ r.errorMessage = env.analyzerStdout ∧
      r.mainLuaRead = false := by
  have hlint : lintOutcome env.analyzerStdout = Except.ok (some env.analyzerStdout) :=
    lintOutcome_failure _ _ _ hfind hw he hpos
  rw [startup] at hrun
  rw [if_pos hmain, hlint] at hrun
  cases hfp : formatPass env.entries with
  | error m =>
    rw [hfp] at hrun
    exact absurd hrun (by simp)
  | ok fmts =>
    rw [hfp] at hrun
    cases hrun
    exact ⟨rfl, rfl, rfl⟩

/-- Claim C1 witness: a concrete stdout with 2 warnings and 1 error. -/
theorem claim1_witness :
    (⟨true, "Checking 2 warnings / 1 error", true, [], false⟩ : StartupResult).error = true ∧
    (⟨true, "Checking 2 warnings / 1 error", true, [], false⟩ : StartupResult).errorMessage =
      c1Env.analyzerStdout ∧
    (⟨true, "Checking 2 warnings / 1 error", true, [], false⟩ : StartupResult).mainLuaRead = false :=
  claim1_validation_failure_reaches_error c1Env "2".data "1".data
    ⟨true, "Checking 2 warnings / 1 error", true, [], false⟩
    rfl (by decide) (by decide) (by decide) (Or.inl (by decide)) rfl

/-- Claim C2 (counterexample): the claim says that when validation fails no
formatter invocation occurs, but on this environment the analyzer stdout
reports one warning, validation fails (error flag set with that stdout as
message), and the formatter is nevertheless invoked on `./main.lua`: the
formatting walk sits in the same block as the lint check, whose guard was
evaluated before the check ran. -/
theorem claim2_counterexample :
    startup lintFailEnv =
      Except.ok ⟨true, "Total: 1 warning / 0 errors", true, ["./main.lua"], false⟩ ∧
    (["./main.lua"] : List String) ≠ [] :=
  ⟨rfl, by decide⟩

/-- Claim C2 (amended): when validation fails, the entry script is never
read or evaluated, but the per-file formatter pass still runs over the
directory walk exactly as in the clean case. -/
theorem claim2_lint_failure_skips_exec_but_formats
    (env : StartupEnv) (m : String) (fmts : List String)
    (hmain : env.mainLuaExists = true)
    (hlint : lintOutcome env.analyzerStdout = Except.ok (some m))
    (hfmt : formatPass env.entries = Except.ok fmts) :
    startup env = Except.ok ⟨true, m, true, fmts, false⟩ := by
  rw [startup, if_pos hmain, hlint, hfmt]

/-- Claim C2 witness: concrete lint-failing environment with one lua file. -/
theorem claim2_witness :
    startup lintFailEnv =
      Except.ok ⟨true, "Total: 1 warning / 0 errors", true, ["./main.lua"], false⟩ :=
  claim2_lint_failure_skips_exec_but_formats lintFailEnv
    "Total: 1 warning / 0 errors" ["./main.lua"] rfl rfl rfl

/-- Claim C3: in the Running state (error flag clear), a frame with a missing
update function sets the error flag with message "Update function not
found." without invoking script code; a clean update call leaves the state
unchanged with the callback invoked; a failing update call sets the error
flag with the interpreter error text. -/
theorem claim3_running_frame_behaviour (s : RunState) (m : String)
    (h : s.error = false) :
    frame FrameEnv.updateMissing s =
      (⟨true, "Update function not found."⟩, ⟨FrameRender.scene, false⟩) ∧
    frame FrameEnv.updateOk s = (s, ⟨FrameRender.scene, true⟩) ∧
    frame (FrameEnv.updateErr m) s = (⟨true, m⟩, ⟨FrameRender.scene, true⟩) := by
  refine ⟨?_, ?_, ?_⟩ <;> rw [frame, if_neg (by rw [h]; exact Bool.false_ne_true)]

/-- Claim C3 witness: the three frame outcomes from the clean start state. -/
theorem claim3_witness :
    frame FrameEnv.updateMissing ⟨false, ""⟩ =
      (⟨true, "Update function not found."⟩, ⟨FrameRender.scene, false⟩) ∧
    frame FrameEnv.updateOk ⟨false, ""⟩ = (⟨false, ""⟩, ⟨FrameRender.scene, true⟩) ∧
    frame (FrameEnv.updateErr "boom") ⟨false, ""⟩ =
      (⟨true, "boom"⟩, ⟨FrameRender.scene, true⟩) :=
  claim3_running_frame_behaviour ⟨false, ""⟩ "boom" rfl

/-- Claim C4: the Error state is terminal: once the error flag is set, any
sequence of frames leaves the state unchanged, and every one of those frames
invokes no script code and renders only the stored error message. -/
theorem claim4_error_state_terminal (s : RunState) (envs : List FrameEnv)
    (h : s.error = true) :
    (runFrames envs s).fst = s ∧
    ((runFrames envs s).snd.all
      (fun o => o == ⟨FrameRender.errorOverlay s.errorMessage, false⟩)) = true := by
  induction envs with
  | nil => exact ⟨rfl, rfl⟩
  | cons e es ih =>
    have hf : frame e s = (s, ⟨FrameRender.errorOverlay s.errorMessage, false⟩) := by
      rw [frame.eq_def, if_pos h]
    simp only [runFrames, hf, List.all_cons, ih.1, ih.2, Bool.and_true, beq_self_eq_true]
    exact ⟨trivial, trivial⟩

/-- Claim C4 witness: two frames from a concrete error state. -/
theorem claim4_witness :
    (runFrames [FrameEnv.updateOk, FrameEnv.updateMissing] ⟨true, "boom"⟩).fst =
      ⟨true, "boom"⟩ ∧
    ((runFrames [FrameEnv.updateOk, FrameEnv.updateMissing] ⟨true, "boom"⟩).snd.all
      (fun o => o == ⟨FrameRender.errorOverlay "boom", false⟩)) = true :=
  claim4_error_state_terminal ⟨true, "boom"⟩
    [FrameEnv.updateOk, FrameEnv.updateMissing] rfl

/-- Claim C5: with no `main.lua` in the script directory, startup ends with
the error flag set and message "main.lua not found.", the analyzer never
invoked and no formatter invocations. -/
theorem claim5_missing_main_lua (env : StartupEnv)
    (h : env.mainLuaExists = false) :
    startup env = Except.ok ⟨true, "main.lua not found.", false, [], false⟩ := by
  rw [startup, if_neg (by rw [h]; exact Bool.false_ne_true)]

/-- Claim C5 witness: a concrete directory without `main.lua`. -/
theorem claim5_witness :
    startup noMainEnv = Except.ok ⟨true, "main.lua not found.", false, [], false⟩ :=
  claim5_missing_main_lua noMainEnv rfl

/-- Claim C6: when the analyzer stdout has no summary match, the diagnostics
count as clean: the lint check never sets the error flag, and the entry
script is read and evaluated (the final error flag reflects only the outcome
of that evaluation). -/
theorem claim6_no_summary_is_clean (env : StartupEnv) (r : StartupResult)
    (hmain : env.mainLuaExists = true)
    (hfind : findSummary env.analyzerStdout.data = none)
    (hrun : startup env = Except.ok r) :
    r.mainLuaRead = true ∧ r.error = env.execMainError.isSome := by
  have hlint := lintOutcome_noMatch env.analyzerStdout hfind
  rw [startup, if_pos hmain, hlint] at hrun
  cases hfp : formatPass env.entries with
  | error m =>
    rw [hfp] at hrun
    exact absurd hrun (by simp)
  | ok fmts =>
    rw [hfp] at hrun
    cases hexec : env.execMainError with
    | none =>
      rw [hexec] at hrun
      cases hrun
      exact ⟨rfl, rfl⟩
    | some m =>
      rw [hexec] at hrun
      cases hrun
      exact ⟨rfl, rfl⟩

/-- Claim C6 witness: analyzer stdout without a summary line; the entry
script is evaluated and the run ends clean. -/
theorem claim6_witness :
    (⟨false, "", true, ["./main.lua"], true⟩ : StartupResult).mainLuaRead = true ∧
    (⟨false, "", true, ["./main.lua"], true⟩ : StartupResult).error =
      cleanEnv.execMainError.isSome :=
  claim6_no_summary_is_clean cleanEnv ⟨false, "", true, ["./main.lua"], true⟩
    rfl (by decide) rfl

/-- Claim C7: for positive window dimensions the scale is
min(w/1280, h/720), the offsets center the scaled surface, and mapping a
real point to virtual coordinates and back recovers it exactly (floats
modelled as exact rationals). -/
theorem claim7_letterbox_roundtrip (w h rx ry : ℚ)
    (hw : 0 < w) (hh : 0 < h) :
    letterboxScale w h = min (w / 1280) (h / 720) ∧
    letterboxOffsetX w h = (w - 1280 * letterboxScale w h) / 2 ∧
    letterboxOffsetY w h = (h - 720 * letterboxScale w h) / 2 ∧
    toRealX w h (toVirtualX w h rx) = rx ∧
    toRealY w h (toVirtualY w h ry) = ry := by
  have hs : 0 < letterboxScale w h := by
    have h1 : 0 < w / VIRTUAL_WIDTH := by
      rw [VIRTUAL_WIDTH]
      positivity
    have h2 : 0 < h / VIRTUAL_HEIGHT := by
      rw [VIRTUAL_HEIGHT]
      positivity
    exact lt_min h1 h2
  refine ⟨rfl, ?_, ?_, ?_, ?_⟩
  · simp only [letterboxOffsetX, VIRTUAL_WIDTH]
    ring
  · simp only [letterboxOffsetY, VIRTUAL_HEIGHT]
    ring
  · rw [toRealX, toVirtualX, div_mul_cancel₀ _ (ne_of_gt hs)]
    ring
  · rw [toRealY, toVirtualY, div_mul_cancel₀ _ (ne_of_gt hs)]
    ring

/-- Claim C7 witness: a 2560x1440 window and the real point (100, 50). -/
theorem claim7_witness :
    letterboxScale 2560 1440 = min ((2560 : ℚ) / 1280) (1440 / 720) ∧
    letterboxOffsetX 2560 1440 = (2560 - 1280 * letterboxScale 2560 1440) / 2 ∧
    letterboxOffsetY 2560 1440 = (1440 - 720 * letterboxScale 2560 1440) / 2 ∧
    toRealX 2560 1440 (toVirtualX 2560 1440 100) = 100 ∧
    toRealY 2560 1440 (toVirtualY 2560 1440 50) = 50 :=
  claim7_letterbox_roundtrip 2560 1440 100 50 (by norm_num) (by norm_num)

/-- Claim C8: provisioning never overwrites an existing file, and a second
provisioning run performs no writes at all. -/
theorem claim8_provisioning_idempotent (fs : String → Option (List Nat))
    (lc lf : List Nat) :
    (∀ p c, fs p = some c → (provision fs lc lf).fst p = some c) ∧
    (provision (provision fs lc lf).fst lc lf).snd = [] := by
  constructor
  · intro p c hc
    simp only [provision]
    exact writeIfAbsent_preserves _ _ _ _ _ (writeIfAbsent_preserves _ _ _ _ _ hc)
  · have h1 : (((provision fs lc lf).fst) "luacheck.exe").isSome = true := by
      simp only [provision]
      exact writeIfAbsent_isSome_mono _ _ _ _
        (writeIfAbsent_target_some fs "luacheck.exe" lc)
    have h2 : (((provision fs lc lf).fst) "lua-format.exe").isSome = true := by
      simp only [provision]
      exact writeIfAbsent_target_some _ "lua-format.exe" lf
    rw [provision_of_exists _ lc lf h1 h2]

/-- Claim C8 witness: a filesystem holding one unrelated file keeps its
content through provisioning, and the second run writes nothing. -/
theorem claim8_witness :
    (provision exampleFs [7] [8]).fst "other.bin" = some [1, 2, 3] ∧
    (provision (provision exampleFs [7] [8]).fst [7] [8]).snd = [] :=
  ⟨(claim8_provisioning_idempotent exampleFs [7] [8]).1 "other.bin" [1, 2, 3] rfl,
   (claim8_provisioning_idempotent exampleFs [7] [8]).2⟩

/-- Claim C9: if the directory walk of the formatting pass holds a regular
file without an extension, the pass panics (the extension is unwrapped
before the comparison with "lua"). -/
theorem claim9_extensionless_file_panics (entries : List (Option DirEntry))
    (e : DirEntry) (hmem : some e ∈ entries)
    (hfile : e.isFile = true) (hext : e.ext = none) :
    isPanic (formatPass entries) = true := by
  induction entries with
  | nil => cases hmem
  | cons oe rest ih =>
    cases hmem with
    | head =>
      have hstep : formatStep e = Except.error "extension unwrap panicked" := by
        rw [formatStep, if_pos hfile, hext]
      rw [formatPass, hstep]
      rfl
    | tail _ hmem2 =>
      cases oe with
      | none =>
        rw [formatPass]
        exact ih hmem2
      | some e2 =>
        rw [formatPass]
        cases hstep : formatStep e2 with
        | error m => rfl
        | ok po =>
          cases po with
          | none => exact ih hmem2
          | some p =>
            have hrest := ih hmem2
            cases hrp : formatPass rest with
            | error m => rfl
            | ok ps =>
              rw [hrp] at hrest
              exact absurd hrest (by simp [isPanic])

/-- Claim C9 witness: a walk holding the file LICENSE with no extension. -/
theorem claim9_witness : isPanic (formatPass panicEntries) = true :=
  claim9_extensionless_file_panics panicEntries ⟨"LICENSE", true, none⟩
    (by decide) rfl rfl

/-- Claim C10: when the summary pattern matches, the lint check panics
exactly when one of the matched counts exceeds u32::MAX; equivalently the
parse succeeds and validation proceeds iff both counts fit in 32 bits. -/
theorem claim10_u32_overflow_panics (stdout : String) (w e : List Char)
    (hfind : findSummary stdout.data = some (w, e)) :
    isPanic (lintOutcome stdout) = true ↔
      4294967296 ≤ digitsVal w ∨ 4294967296 ≤ digitsVal e := by
  simp only [lintOutcome, hfind, parseU32]
  rcases Nat.lt_or_ge (digitsVal w) 4294967296 with hw | hw
  · rcases Nat.lt_or_ge (digitsVal e) 4294967296 with he | he
    · simp only [if_pos hw, if_pos he, isPanic_ite]
      constructor
      · intro hfalse
        exact absurd hfalse (by simp)
      · intro hge
        exfalso
        omega
    · simp only [if_pos hw, if_neg (Nat.not_lt.mpr he)]
      simp only [isPanic]
      constructor
      · intro _
        omega
      · intro _
        trivial
  · simp only [if_neg (Nat.not_lt.mpr hw)]
    simp only [isPanic]
    constructor
    · intro _
      omega
    · intro _
      trivial

/-- Claim C10 witness: a summary whose warnings count is 4294967296. -/
theorem claim10_witness :
    isPanic (lintOutcome overflowStdout) = true ↔
      4294967296 ≤ digitsVal "4294967296".data ∨
        4294967296 ≤ digitsVal "0".data :=
  claim10_u32_overflow_panics overflowStdout "4294967296".data "0".data (by decide)

end Resto
